import Mathlib

/-!
Verification of the capmonstercloud-client transport, pipeline and
polling orchestrator against its specification.  The transport and
pipeline definitions are shallow embeddings of `HttpClient`
(`src/unnamed/part_001`); the orchestrator and request-body builders
are modelled from the spec, as their source is not part of the
provided files.
-/

set_option maxRecDepth 8192

namespace CapMonster

mutual
/-- A JSON value as used by the client: string literals, numeric
literals kept verbatim as written, and objects with ordered fields
(mirroring JavaScript object key order under `JSON.stringify`). -/
inductive Json where
  | str : String → Json
  | num : String → Json
  | obj : JsonFields → Json
  deriving Repr, DecidableEq

/-- The ordered field list of a JSON object. -/
inductive JsonFields where
  | nil : JsonFields
  | cons : String → Json → JsonFields → JsonFields
  deriving Repr, DecidableEq
end

/-- Escape a character for inclusion in a JSON string literal
(the inputs exercised by the client contain no control characters). -/
def escapeChar (c : Char) : String :=
  if c = '"' then "\\\"" else if c = '\\' then "\\\\" else String.singleton c

/-- Escape a string for inclusion in a JSON string literal. -/
def escapeJson (s : String) : String :=
  String.join (s.toList.map escapeChar)

mutual
/-- Render a JSON value exactly as `JSON.stringify` does: no
whitespace, fields in insertion order. -/
def Json.render : Json → String
  | .str s => "\"" ++ escapeJson s ++ "\""
  | .num n => n
  | .obj fs => "\x7b" ++ JsonFields.render fs ++ "\x7d"
termination_by structural j => j

/-- Render an ordered field list, comma separated. -/
def JsonFields.render : JsonFields → String
  | .nil => ""
  | .cons k v fs =>
      "\"" ++ escapeJson k ++ "\":" ++ Json.render v ++
        (match fs with | .nil => "" | .cons _ _ _ => ",") ++ JsonFields.render fs
termination_by structural fs => fs
end

/-- Look up a field of a JSON object (first occurrence, as JavaScript
property access on parsed JSON). -/
def JsonFields.lookupField : JsonFields → String → Option Json
  | .nil, _ => none
  | .cons k v fs, key => if k = key then some v else fs.lookupField key

/-- Property access `j[key]` on a JSON value: `none` when the value is
not an object or lacks the key (JavaScript `undefined`). -/
def Json.getField : Json → String → Option Json
  | .obj fs, key => fs.lookupField key
  | _, _ => none

/-- JavaScript `String.prototype.includes` on explicit character
lists: does `pat` occur as a contiguous substring? -/
def charsInclude (pat : List Char) : List Char → Bool
  | [] => pat.isEmpty
  | c :: rest => List.isPrefixOf pat (c :: rest) || charsInclude pat rest

/-- JavaScript `contentType.includes(expected)` as used by
`responseContentTypeHandler`. -/
def strIncludes (s pat : String) : Bool :=
  charsInclude pat.toList s.toList

/-- Value of `ResponseContentType.json` in the source enum. -/
def ctJson : String := "application/json"

/-- Value of `ResponseContentType.text` in the source enum. -/
def ctText : String := "text/plain"

/-- A value thrown or rejected through the promise chains of the client.
The first four constructors mirror the classes rooted at
`HttpClientError extends Error`; `jsonParseError` mirrors
`JSONParseError extends Error` (NOT a subclass of `HttpClientError`);
the last three are raw values the source rejects with directly:
the argument of a socket `error` event, the `hadError` flag of a
socket `close` event, and `reject()` with no argument. -/
inductive ThrownValue where
  | httpSocketError (msg : String)
  | httpStatusError (statusMessage : Option String) (statusCode : Option Nat)
  | httpContentTypeError (msg : String)
  | jsonParseError (msg : String) (responseBody : String)
  | nodeSocketError (msg : String)
  | closeEventValue (hadError : Bool)
  | undefinedValue
  deriving Repr, DecidableEq

/-- JavaScript `v instanceof HttpClientError`: true exactly for the
classes that extend `HttpClientError` in the source
(`HttpSocketError`, `HttpStatusError`, `HttpContentTypeError`). -/
def ThrownValue.isHttpClientError : ThrownValue → Bool
  | .httpSocketError _ => true
  | .httpStatusError _ _ => true
  | .httpContentTypeError _ => true
  | _ => false

/-- JavaScript `v instanceof HttpSocketError`: the "socket-error kind"
of the taxonomy. -/
def ThrownValue.isSocketErrorKind : ThrownValue → Bool
  | .httpSocketError _ => true
  | _ => false

/-- The response features the pipeline inspects: `res.statusCode`
(may be `undefined`), `res.statusMessage`, the
content-type entry of `res.headers` (may be absent), and the
accumulated UTF-8 body. -/
structure IncomingMessage where
  statusCode : Option Nat
  statusMessage : Option String
  contentTypeHeader : Option String
  body : String
  deriving Repr, DecidableEq

/-- Model of `HttpClient.responseStatusHandler`: resolve the response when
`res.statusCode === expectedStatus`, otherwise reject with
`new HttpStatusError(res.statusMessage, res.statusCode)`. -/
def responseStatusHandler (res : IncomingMessage) (expectedStatus : Nat) :
    Except ThrownValue IncomingMessage :=
  if res.statusCode = some expectedStatus then .ok res
  else .error (.httpStatusError res.statusMessage res.statusCode)

/-- Source expression `expectedContentTypes.some((e) => contentType.includes(e))` — the
array branch of `responseContentTypeHandler`; a single expected type
is the singleton list. -/
def contentTypeOk (contentType : String) (expectedContentTypes : List String) : Bool :=
  expectedContentTypes.any (fun e => strIncludes contentType e)

/-- Model of `HttpClient.responseContentTypeHandler`: reject with
`HttpContentTypeError` when the `content-type` header is absent or
matches (as a substring) none of the expected media types. -/
def responseContentTypeHandler (res : IncomingMessage) (expectedContentTypes : List String) :
    Except ThrownValue IncomingMessage :=
  match res.contentTypeHeader with
  | some contentType =>
      if contentTypeOk contentType expectedContentTypes then .ok res
      else .error (.httpContentTypeError ("Unexpected content type. Got " ++ contentType))
  | none => .error (.httpContentTypeError "Unknown content type")

/-- Model of `HttpClient.responseBodyHandler`: buffer the data chunks and
resolve the concatenated UTF-8 body once the stream ends. -/
def responseBodyHandler (res : IncomingMessage) : Except ThrownValue String :=
  .ok res.body

/-- Model of `HttpClient.responseJSONHandler`, parameterised by the
runtime builtin `JSON.parse`: a parse failure is wrapped as
`new JSONParseError(err.message, responseBody)`. -/
def responseJSONHandler (parse : String → Except String Json) (res : IncomingMessage) :
    Except ThrownValue Json :=
  match responseBodyHandler res with
  | .ok responseBody =>
      match parse responseBody with
      | .ok j => .ok j
      | .error m => .error (.jsonParseError m responseBody)
  | .error e => .error e

/-- Model of `HttpClient.postJSON`: status check (200), then content-type check
against `[json, text]`, then JSON decoding of the body. -/
def postJSON (parse : String → Except String Json) (res : IncomingMessage) :
    Except ThrownValue Json := do
  let r1 ← responseStatusHandler res 200
  let r2 ← responseContentTypeHandler r1 [ctJson, ctText]
  responseJSONHandler parse r2

/-- Model of `HttpClient.postText`: status check (200), then content-type check
against `text/plain` only, then the raw body. -/
def postText (res : IncomingMessage) : Except ThrownValue String := do
  let r1 ← responseStatusHandler res 200
  let r2 ← responseContentTypeHandler r1 [ctText]
  responseBodyHandler r2

/-- The mutable connection state of `HttpClient`: `_socket` and
`_agent`, each either absent or the identity of a live object. -/
structure HttpClientState where
  socket : Option Nat
  agent : Option Nat
  deriving Repr, DecidableEq

/-- The events driving the `netConnect` promise executor:
`net.connect` assigning `this._socket`, the socket `connect` event,
the socket `error` event, and the socket `close` event. -/
inductive NetEvent where
  | startConnect (sid : Nat)
  | connectOk (aid : Nat)
  | socketErrorEvt (msg : String)
  | socketCloseEvt (hadError : Bool)
  deriving Repr, DecidableEq

/-- What a `netConnect` event handler does to the pending promise. -/
inductive PromiseEffect where
  | stillPending
  | resolved
  | rejectedWith (v : ThrownValue)
  deriving Repr, DecidableEq

/-- One step of the event handling in `HttpClient.netConnect`, read
off the source: `startConnect` stores the fresh socket; the `connect` handler
creates the keep-alive agent only if `this._socket` is still present
(else `reject()`); the `error` handler clears `_socket` and `_agent`
and rejects with the raw error; the `close` handler clears both and
rejects with the raw `hadError` flag. -/
def netConnectStep (st : HttpClientState) : NetEvent → HttpClientState × PromiseEffect
  | .startConnect sid => ({ socket := some sid, agent := st.agent }, .stillPending)
  | .connectOk aid =>
      match st.socket with
      | some _ => ({ st with agent := some aid }, .resolved)
      | none => (st, .rejectedWith .undefinedValue)
  | .socketErrorEvt msg =>
      ({ socket := none, agent := none }, .rejectedWith (.nodeSocketError msg))
  | .socketCloseEvt hadError =>
      ({ socket := none, agent := none }, .rejectedWith (.closeEventValue hadError))

/-- Does a promise effect reject with the socket-error kind
(`HttpSocketError`) of the taxonomy? -/
def PromiseEffect.rejectsSocketErrorKind : PromiseEffect → Bool
  | .rejectedWith v => v.isSocketErrorKind
  | _ => false

/-- The action `netConnectOrUse` takes: reuse the existing socket
(resolve immediately, no I/O) or fall through to `netConnect()`. -/
inductive ConnectAction where
  | reuse
  | freshConnect
  deriving Repr, DecidableEq

/-- Model of `HttpClient.netConnectOrUse`: if `this._socket` is set, resolve at
once and leave the state untouched; otherwise a fresh `netConnect`. -/
def netConnectOrUse (st : HttpClientState) : HttpClientState × ConnectAction :=
  match st.socket with
  | some _ => (st, .reuse)
  | none => (st, .freshConnect)

/-- A fresh `HttpClient` has neither socket nor agent. -/
def initialClientState : HttpClientState := ⟨none, none⟩

/-- Run a sequence of socket events from the fresh client state. -/
def runNetEvents (evs : List NetEvent) : HttpClientState :=
  evs.foldl (fun st e => (netConnectStep st e).1) initialClientState

/-- The invariant of claim C10: an agent exists only when its
underlying socket does. -/
def agentImpliesSocket (st : HttpClientState) : Bool :=
  st.agent.isNone || st.socket.isSome

/-- The `errorId` field of a decoded response, as a numeric literal. -/
def errorIdLit (resp : Json) : Option String :=
  match resp.getField "errorId" with
  | some (.num n) => some n
  | _ => none

/-- Service success: `errorId` equal to `0`. -/
def hasZeroErrorId (resp : Json) : Bool :=
  errorIdLit resp == some "0"

/-- The `status` field of a decoded task-result response. -/
def statusStr (resp : Json) : Option String :=
  match resp.getField "status" with
  | some (.str s) => some s
  | _ => none

/-- The `taskId` field of a decoded create-task response, kept
verbatim as the numeric literal received. -/
def taskIdLit (resp : Json) : Option String :=
  match resp.getField "taskId" with
  | some (.num n) => some n
  | _ => none

/-- The `balance` field of a decoded balance response, as the numeric
literal received. -/
def balanceLit (resp : Json) : Option String :=
  match resp.getField "balance" with
  | some (.num n) => some n
  | _ => none

/-- The `solution` field of a ready task-result response. -/
def solutionOf (resp : Json) : Json :=
  (resp.getField "solution").getD (Json.obj .nil)

/-- Modelled from the spec: the `getBalance` request body — exact JSON
containing only the client key (`{"clientKey":<key>}`), as asserted by
the integration test. (The body builder itself lives in the
`CapMonsterCloudClient` file, which is not among the provided
sources.) -/
def getBalanceBody (clientKey : String) : String :=
  (Json.obj (.cons "clientKey" (.str clientKey) .nil)).render

/-- Modelled from the spec: the `createTask` request body — exact JSON
with stable key order `clientKey`, then the type-tagged `task` object,
then the fixed integration identifier `softId` 53, as asserted by the
integration test. -/
def createTaskBody (clientKey : String) (task : Json) : String :=
  (Json.obj (.cons "clientKey" (.str clientKey)
    (.cons "task" task
      (.cons "softId" (.num "53") .nil)))).render

/-- Modelled from the spec: the `getTaskResult` request body — exact
JSON containing the client key and the task identifier received from
`createTask`, unchanged. -/
def getTaskResultBody (clientKey taskIdL : String) : String :=
  (Json.obj (.cons "clientKey" (.str clientKey)
    (.cons "taskId" (.num taskIdL) .nil))).render

/-- Terminal outcome of a solve run: the orchestrator state machine
ends in `Ready`, `Failed` (service error detail attached) or
`TimedOut`. -/
inductive SolveOutcome where
  | ready (solution : Json)
  | failed (resp : Json)
  | timedOut
  deriving Repr, DecidableEq

/-- Modelled from the spec (§4.3 Polling): repeatedly send
`getTaskResult` with the stored task identifier; a non-zero `errorId`
is a terminal business failure; status `ready` returns the embedded
solution; otherwise increment the attempt counter and retry unless
the configured maximum is reached, in which case `TimedOut`.
Here `fetch i` is the service response to poll number `i`; the result
pairs the list of request bodies actually sent with the outcome.
(The orchestrator source file is not among the provided sources.) -/
def pollTaskResult (clientKey taskIdL : String) (fetch : Nat → Json) :
    Nat → Nat → List String × SolveOutcome
  | _, 0 => ([], .timedOut)
  | i, remaining + 1 =>
      let body := getTaskResultBody clientKey taskIdL
      let resp := fetch i
      if hasZeroErrorId resp then
        if statusStr resp == some "ready" then
          ([body], .ready (solutionOf resp))
        else
          let rest := pollTaskResult clientKey taskIdL fetch (i + 1) remaining
          (body :: rest.1, rest.2)
      else ([body], .failed resp)

/-- Modelled from the spec (§4.3 Submitting): send `createTask`; a
non-zero `errorId` (or a response without a task identifier) is a
terminal failure; otherwise extract the task identifier and poll.
`createResp` is the decoded `createTask` response and `fetch` the
decoded responses to successive `getTaskResult` polls; the result
pairs every request body sent (in order) with the outcome. -/
def solveRun (clientKey : String) (task : Json) (createResp : Json)
    (fetch : Nat → Json) (maxAttempts : Nat) : List String × SolveOutcome :=
  let createBody := createTaskBody clientKey task
  if hasZeroErrorId createResp then
    match taskIdLit createResp with
    | some tid =>
        let rest := pollTaskResult clientKey tid fetch 0 maxAttempts
        (createBody :: rest.1, rest.2)
    | none => ([createBody], .failed createResp)
  else ([createBody], .failed createResp)

/-- The value `getBalance` resolves with: an object exposing the
parsed `balance` field. -/
structure GetBalanceResult where
  balance : Option String
  deriving Repr, DecidableEq

/-- Modelled from the spec: `getBalance` sends `{"clientKey":<key>}`
and, on a zero `errorId`, resolves with the parsed `balance` field;
a non-zero `errorId` is a terminal business failure. -/
def getBalanceRun (clientKey : String) (resp : Json) :
    String × Except Json GetBalanceResult :=
  (getBalanceBody clientKey,
   if hasZeroErrorId resp then .ok ⟨balanceLit resp⟩ else .error resp)

/-- The client key used throughout the integration test. -/
def testClientKey : String := "<your capmonster.cloud API key>"

/-- The decoded balance response of the test scenario. -/
def balanceResp : Json :=
  .obj (.cons "errorId" (.num "0") (.cons "balance" (.num "345.678") .nil))

/-- The serialized `RecaptchaV2ProxylessRequest` of the test scenario:
a type-tagged task object. -/
def recaptchaTask : Json :=
  .obj (.cons "type" (.str "NoCaptchaTaskProxyless")
    (.cons "websiteURL"
      (.str "https://lessons.zennolab.com/captchas/recaptcha/v2_simple.php?level=high")
      (.cons "websiteKey" (.str "6Lcg7CMUAAAAANphynKgn9YAgA4tQ2KI_iqRyTwd") .nil)))

/-- The decoded `createTask` response of the test scenario. -/
def createResp : Json :=
  .obj (.cons "errorId" (.num "0") (.cons "taskId" (.num "7654321") .nil))

/-- The decoded ready `getTaskResult` response of the test scenario. -/
def readyResp : Json :=
  .obj (.cons "errorId" (.num "0")
    (.cons "status" (.str "ready")
      (.cons "solution" (.obj (.cons "gRecaptchaResponse" (.str "answer") .nil)) .nil)))

/-- A task-result response that reports "still processing". -/
def processingResp : Json :=
  .obj (.cons "errorId" (.num "0") (.cons "status" (.str "processing") .nil))

/-- A client state holding a live socket and its agent. -/
def liveClientState : HttpClientState := { socket := some 1, agent := some 1 }

/-- Claim C2: for every HTTP response whose status code is not 200,
`postJSON` fails with a status error carrying the observed status code
and message; the result is the same for every JSON parser and for
every content-type header and body, so neither the content-type check
nor any body read or JSON decode can influence it. -/
theorem postJSON_non200_rejects_statusError
    (parse parse2 : String → Except String Json) (res : IncomingMessage)
    (ct : Option String) (b : String)
    (h : res.statusCode ≠ some 200) :
    postJSON parse res
        = .error (.httpStatusError res.statusMessage res.statusCode) ∧
    postJSON parse2 { res with contentTypeHeader := ct, body := b }
        = .error (.httpStatusError res.statusMessage res.statusCode) := by
  constructor
  · simp [postJSON, responseStatusHandler, h, Bind.bind, Except.bind]
  · simp [postJSON, responseStatusHandler, h, Bind.bind, Except.bind]

/-- Witness for C2: a 500 response with message "Internal Server
Error" is rejected as a status error carrying exactly those. -/
theorem postJSON_non200_rejects_statusError_witness :
    postJSON (fun _ => Except.error "ignored")
        ⟨some 500, some "Internal Server Error", some "application/json", "ignored"⟩
        = .error (.httpStatusError (some "Internal Server Error") (some 500)) ∧
    postJSON (fun _ => Except.ok (Json.num "1"))
        ⟨some 500, some "Internal Server Error", some "text/plain", "x"⟩
        = .error (.httpStatusError (some "Internal Server Error") (some 500)) :=
  postJSON_non200_rejects_statusError (fun _ => Except.error "ignored")
    (fun _ => Except.ok (Json.num "1"))
    ⟨some 500, some "Internal Server Error", some "application/json", "ignored"⟩
    (some "text/plain") "x" (by decide)

/-- Claim C3: for every 200 response whose content-type header is
absent or matches neither expected media type, `postJSON` (expecting
JSON or plain text) and `postText` (expecting only plain text) fail
with a content-type error — for every JSON parser, so no body parse is
attempted. -/
theorem contentType_mismatch_rejects_contentTypeError
    (parse : String → Except String Json) (res res2 : IncomingMessage)
    (h1 : res.statusCode = some 200)
    (h2 : ∀ c, res.contentTypeHeader = some c → contentTypeOk c [ctJson, ctText] = false)
    (h3 : res2.statusCode = some 200)
    (h4 : ∀ c, res2.contentTypeHeader = some c → contentTypeOk c [ctText] = false) :
    (∃ m, postJSON parse res = .error (.httpContentTypeError m)) ∧
    (∃ m, postText res2 = .error (.httpContentTypeError m)) := by
  constructor
  · cases hct : res.contentTypeHeader with
    | none =>
        exact ⟨"Unknown content type", by
          simp [postJSON, responseStatusHandler, responseContentTypeHandler, h1, hct,
            Bind.bind, Except.bind]⟩
    | some c =>
        exact ⟨"Unexpected content type. Got " ++ c, by
          simp [postJSON, responseStatusHandler, responseContentTypeHandler, h1, hct,
            h2 c hct, Bind.bind, Except.bind]⟩
  · cases hct : res2.contentTypeHeader with
    | none =>
        exact ⟨"Unknown content type", by
          simp [postText, responseStatusHandler, responseContentTypeHandler, h3, hct,
            Bind.bind, Except.bind]⟩
    | some c =>
        exact ⟨"Unexpected content type. Got " ++ c, by
          simp [postText, responseStatusHandler, responseContentTypeHandler, h3, hct,
            h4 c hct, Bind.bind, Except.bind]⟩

/-- Witness for C3: a 200 response typed `text/html` is rejected with
a content-type error on both the JSON-decoding and text-only paths. -/
theorem contentType_mismatch_rejects_contentTypeError_witness :
    (∃ m, postJSON (fun _ => Except.ok (Json.num "1"))
        ⟨some 200, some "OK", some "text/html", "<html>"⟩
        = .error (.httpContentTypeError m)) ∧
    (∃ m, postText ⟨some 200, some "OK", some "text/html", "<html>"⟩
        = .error (.httpContentTypeError m)) :=
  contentType_mismatch_rejects_contentTypeError (fun _ => Except.ok (Json.num "1"))
    ⟨some 200, some "OK", some "text/html", "<html>"⟩
    ⟨some 200, some "OK", some "text/html", "<html>"⟩
    (by decide)
    (by intro c hc; simp at hc; subst hc; decide)
    (by decide)
    (by intro c hc; simp at hc; subst hc; decide)

/-- Claim C4: a response body that passes the status and content-type
checks but fails to parse as JSON makes `postJSON` fail with a
JSON-parse error carrying both the parser message and the raw
undecoded body, and that error kind is not an `HttpClientError`, so it
is distinguishable from every HTTP-layer error kind. -/
theorem jsonParseError_carries_body_and_is_separately_rooted
    (parse : String → Except String Json) (res : IncomingMessage) (msg : String)
    (h1 : res.statusCode = some 200)
    (h2 : responseContentTypeHandler res [ctJson, ctText] = .ok res)
    (h3 : parse res.body = .error msg) :
    postJSON parse res = .error (.jsonParseError msg res.body) ∧
    (ThrownValue.jsonParseError msg res.body).isHttpClientError = false := by
  constructor
  · simp [postJSON, responseStatusHandler, responseJSONHandler, responseBodyHandler,
      h1, h2, h3, Bind.bind, Except.bind]
  · rfl

/-- Witness for C4: a syntactically invalid JSON body behind a valid
200/`application/json` response yields the JSON-parse error with the
parser message and the raw body, outside the HTTP error hierarchy. -/
theorem jsonParseError_witness :
    postJSON (fun _ => Except.error "Unexpected token n in JSON")
        ⟨some 200, some "OK", some "application/json", "not json"⟩
        = .error (.jsonParseError "Unexpected token n in JSON" "not json") ∧
    (ThrownValue.jsonParseError "Unexpected token n in JSON" "not json").isHttpClientError
        = false :=
  jsonParseError_carries_body_and_is_separately_rooted
    (fun _ => Except.error "Unexpected token n in JSON")
    ⟨some 200, some "OK", some "application/json", "not json"⟩
    "Unexpected token n in JSON" (by decide) rfl rfl

/-- Claim C5, counterexample: a socket `error` event on a live client
does clear the state but rejects with the raw Node error (the same
for `close` and its flag), NOT with the socket-error kind
(`HttpSocketError`), which the source declares but never raises. -/
theorem socketEvent_reject_lacks_socketErrorKind :
    (netConnectStep liveClientState (.socketErrorEvt "ECONNRESET")).2.rejectsSocketErrorKind
        = false ∧
    (netConnectStep liveClientState (.socketCloseEvt true)).2.rejectsSocketErrorKind
        = false := by decide

/-- Claim C5, amended: every socket `error` or `close` event clears
both the stored socket and the stored agent and rejects the in-flight
connect with the raw event value (the socket error, or the close
flag), not with the socket-error class. -/
theorem socketEvent_clears_state_and_rejects_raw
    (st : HttpClientState) (msg : String) (hadError : Bool) :
    netConnectStep st (.socketErrorEvt msg)
        = (⟨none, none⟩, .rejectedWith (.nodeSocketError msg)) ∧
    netConnectStep st (.socketCloseEvt hadError)
        = (⟨none, none⟩, .rejectedWith (.closeEventValue hadError)) :=
  ⟨rfl, rfl⟩

/-- Claim C6: when a socket is already stored, `netConnectOrUse`
returns immediately with the state unchanged and takes the `reuse`
action (no new connection I/O); calling it again yields the same. -/
theorem netConnectOrUse_idempotent_reuse
    (st : HttpClientState) (h : st.socket.isSome = true) :
    netConnectOrUse st = (st, ConnectAction.reuse) ∧
    netConnectOrUse (netConnectOrUse st).1 = (st, ConnectAction.reuse) := by
  obtain ⟨s, hs⟩ := Option.isSome_iff_exists.mp h
  have h1 : netConnectOrUse st = (st, ConnectAction.reuse) := by
    simp [netConnectOrUse, hs]
  exact ⟨h1, by rw [h1]; exact h1⟩

/-- Witness for C6: a client holding socket 5 reuses it on both calls. -/
theorem netConnectOrUse_idempotent_reuse_witness :
    netConnectOrUse ⟨some 5, some 2⟩ = (⟨some 5, some 2⟩, ConnectAction.reuse) ∧
    netConnectOrUse (netConnectOrUse ⟨some 5, some 2⟩).1
        = (⟨some 5, some 2⟩, ConnectAction.reuse) :=
  netConnectOrUse_idempotent_reuse ⟨some 5, some 2⟩ (by decide)

/-- One step of the socket event machine preserves the invariant that
an agent exists only alongside its socket. -/
theorem netConnectStep_preserves_invariant (st : HttpClientState) (e : NetEvent)
    (h : agentImpliesSocket st = true) :
    agentImpliesSocket (netConnectStep st e).1 = true := by
  cases e with
  | startConnect sid => simp [netConnectStep, agentImpliesSocket]
  | connectOk aid =>
      cases hs : st.socket with
      | none => simpa [netConnectStep, hs] using h
      | some s => simp [netConnectStep, hs, agentImpliesSocket]
  | socketErrorEvt msg => simp [netConnectStep, agentImpliesSocket]
  | socketCloseEvt b => simp [netConnectStep, agentImpliesSocket]

/-- Folding any event sequence from an invariant state stays
invariant. -/
theorem foldNetEvents_preserves_invariant (evs : List NetEvent) :
    ∀ st : HttpClientState, agentImpliesSocket st = true →
      agentImpliesSocket (evs.foldl (fun s e => (netConnectStep s e).1) st) = true := by
  induction evs with
  | nil => intro st h; simpa using h
  | cons e rest ih =>
      intro st h
      simpa [List.foldl_cons] using ih _ (netConnectStep_preserves_invariant st e h)

/-- Claim C10: in every state reachable by socket events from a fresh
client, the keep-alive agent is defined only when the socket is — no
reachable state has an agent without its underlying socket. -/
theorem reachable_agent_implies_socket (evs : List NetEvent) :
    agentImpliesSocket (runNetEvents evs) = true :=
  foldNetEvents_preserves_invariant evs initialClientState rfl

/-- When every poll response reports a zero error identifier and a
not-ready status, the loop sends one identical request per permitted
attempt and times out. -/
theorem pollTaskResult_notReady_aux (clientKey tid : String) (fetch : Nat → Json)
    (h : ∀ i, hasZeroErrorId (fetch i) = true ∧ statusStr (fetch i) = some "processing") :
    ∀ remaining i : Nat,
      pollTaskResult clientKey tid fetch i remaining
        = (List.replicate remaining (getTaskResultBody clientKey tid),
           SolveOutcome.timedOut) := by
  intro remaining
  induction remaining with
  | zero => intro i; rfl
  | succ n ih =>
      intro i
      have h1 := (h i).1
      have h2 : (statusStr (fetch i) == some "ready") = false := by
        rw [(h i).2]; rfl
      simp [pollTaskResult, h1, h2, ih (i + 1), List.replicate_succ]

/-- Claim C1: when the result endpoint always reports not-ready, the
orchestrator ends in the distinct timeout outcome after sending
exactly the configured maximum number of poll requests — the poll
count equals the bound, so polling is never unbounded. -/
theorem polling_always_notReady_timesOut_after_max
    (clientKey tid : String) (fetch : Nat → Json) (maxAttempts : Nat)
    (h : ∀ i, hasZeroErrorId (fetch i) = true ∧ statusStr (fetch i) = some "processing") :
    pollTaskResult clientKey tid fetch 0 maxAttempts
        = (List.replicate maxAttempts (getTaskResultBody clientKey tid),
           SolveOutcome.timedOut) ∧
    (pollTaskResult clientKey tid fetch 0 maxAttempts).1.length = maxAttempts := by
  have e := pollTaskResult_notReady_aux clientKey tid fetch h maxAttempts 0
  exact ⟨e, by rw [e]; simp⟩

/-- Witness for C1: with a budget of three attempts against an
endpoint stuck on "processing", exactly three polls happen and the
outcome is the timeout. -/
theorem polling_timesOut_witness :
    pollTaskResult "k" "42" (fun _ => processingResp) 0 3
        = (List.replicate 3 (getTaskResultBody "k" "42"), SolveOutcome.timedOut) ∧
    (pollTaskResult "k" "42" (fun _ => processingResp) 0 3).1.length = 3 :=
  polling_always_notReady_timesOut_after_max "k" "42" (fun _ => processingResp) 3
    (fun _ => ⟨rfl, rfl⟩)

/-- Claim C7: every `createTask` request body is exact JSON in the
fixed key order client key, then the type-tagged task object, then the
integration identifier `softId` 53; on the inputs of the integration test
it is exactly the byte string the test asserts. -/
theorem createTask_body_exact (clientKey : String) (task : Json) :
    createTaskBody clientKey task
        = "\x7b\"clientKey\":\"" ++ escapeJson clientKey ++ "\",\"task\":"
            ++ task.render ++ ",\"softId\":53\x7d" ∧
    createTaskBody testClientKey recaptchaTask
        = "\x7b\"clientKey\":\"<your capmonster.cloud API key>\",\"task\":\x7b\"type\":\"NoCaptchaTaskProxyless\",\"websiteURL\":\"https://lessons.zennolab.com/captchas/recaptcha/v2_simple.php?level=high\",\"websiteKey\":\"6Lcg7CMUAAAAANphynKgn9YAgA4tQ2KI_iqRyTwd\"\x7d,\"softId\":53\x7d" := by
  constructor
  · simp only [createTaskBody, Json.render, JsonFields.render, String.append_assoc]
    rfl
  · decide

/-- The poll loop only ever sends the request carrying the stored
client key and the task identifier received from `createTask`. -/
theorem pollTaskResult_bodies_fixed :
    ∀ (key tid : String) (fetch : Nat → Json) (rem i : Nat) (b : String),
      b ∈ (pollTaskResult key tid fetch i rem).1 → b = getTaskResultBody key tid := by
  intro key tid fetch rem
  induction rem with
  | zero => intro i b hb; simp [pollTaskResult] at hb
  | succ n ih =>
      intro i b hb
      simp only [pollTaskResult] at hb
      split at hb
      · split at hb
        · simp at hb; exact hb
        · simp at hb
          rcases hb with hb | hb
          · exact hb
          · exact ih (i + 1) b hb
      · simp at hb; exact hb

/-- Claim C8: the `createTask` and ready `getTaskResult` responses of
the integration test render exactly as the mock server reply
strings; with those responses the solve run sends the create body and
then the `getTaskResult` body carrying task identifier 7654321
unchanged, and resolves with the solution whose `gRecaptchaResponse`
is "answer"; moreover every poll request body carries the stored
client key and the task identifier received from `createTask`. -/
theorem solve_roundtrips_taskId_and_solution
    (maxAttempts : Nat) (h : 0 < maxAttempts) :
    createResp.render = "\x7b\"errorId\":0,\"taskId\":7654321\x7d" ∧
    readyResp.render
        = "\x7b\"errorId\":0,\"status\":\"ready\",\"solution\":\x7b\"gRecaptchaResponse\":\"answer\"\x7d\x7d" ∧
    solveRun testClientKey recaptchaTask createResp (fun _ => readyResp) maxAttempts
        = ([createTaskBody testClientKey recaptchaTask,
            "\x7b\"clientKey\":\"<your capmonster.cloud API key>\",\"taskId\":7654321\x7d"],
           SolveOutcome.ready (Json.obj (.cons "gRecaptchaResponse" (.str "answer") .nil))) ∧
    (∀ (key tid : String) (fetch : Nat → Json) (rem i : Nat) (b : String),
        b ∈ (pollTaskResult key tid fetch i rem).1 → b = getTaskResultBody key tid) := by
  cases maxAttempts with
  | zero => exact absurd h (by decide)
  | succ n =>
      refine ⟨by decide, by decide, ?_, pollTaskResult_bodies_fixed⟩
      have hz : hasZeroErrorId createResp = true := by decide
      have ht : taskIdLit createResp = some "7654321" := by decide
      have hz2 : hasZeroErrorId readyResp = true := by decide
      have hr : (statusStr readyResp == some "ready") = true := by decide
      simp only [solveRun, pollTaskResult, hz, ht, hz2, hr, if_true]
      decide

/-- Witness for C8: the scenario with a two-attempt budget. -/
theorem solve_roundtrips_witness :
    createResp.render = "\x7b\"errorId\":0,\"taskId\":7654321\x7d" ∧
    readyResp.render
        = "\x7b\"errorId\":0,\"status\":\"ready\",\"solution\":\x7b\"gRecaptchaResponse\":\"answer\"\x7d\x7d" ∧
    solveRun testClientKey recaptchaTask createResp (fun _ => readyResp) 2
        = ([createTaskBody testClientKey recaptchaTask,
            "\x7b\"clientKey\":\"<your capmonster.cloud API key>\",\"taskId\":7654321\x7d"],
           SolveOutcome.ready (Json.obj (.cons "gRecaptchaResponse" (.str "answer") .nil))) ∧
    (∀ (key tid : String) (fetch : Nat → Json) (rem i : Nat) (b : String),
        b ∈ (pollTaskResult key tid fetch i rem).1 → b = getTaskResultBody key tid) :=
  solve_roundtrips_taskId_and_solution 2 (by decide)

/-- Claim C9: for every balance response with a zero error identifier,
`getBalance` resolves to a value whose balance is exactly the parsed
`balance` field, and its request body is exactly the client key
object; on the test scenario the response renders as the mock string,
the body is the asserted byte string and the balance is 345.678. -/
theorem getBalance_matches_balance_field (clientKey : String) (resp : Json)
    (h : hasZeroErrorId resp = true) :
    getBalanceRun clientKey resp = (getBalanceBody clientKey, .ok ⟨balanceLit resp⟩) ∧
    getBalanceBody clientKey = "\x7b\"clientKey\":\"" ++ escapeJson clientKey ++ "\"\x7d" ∧
    balanceResp.render = "\x7b\"errorId\":0,\"balance\":345.678\x7d" ∧
    getBalanceRun testClientKey balanceResp
        = ("\x7b\"clientKey\":\"<your capmonster.cloud API key>\"\x7d",
           Except.ok ⟨some "345.678"⟩) := by
  refine ⟨?_, ?_, by decide, ?_⟩
  · simp [getBalanceRun, h]
  · simp only [getBalanceBody, Json.render, JsonFields.render, String.append_assoc]
    rfl
  · rfl

/-- Witness for C9: the scenario inputs themselves. -/
theorem getBalance_matches_witness :
    getBalanceRun testClientKey balanceResp
        = (getBalanceBody testClientKey, .ok ⟨balanceLit balanceResp⟩) ∧
    getBalanceBody testClientKey
        = "\x7b\"clientKey\":\"" ++ escapeJson testClientKey ++ "\"\x7d" ∧
    balanceResp.render = "\x7b\"errorId\":0,\"balance\":345.678\x7d" ∧
    getBalanceRun testClientKey balanceResp
        = ("\x7b\"clientKey\":\"<your capmonster.cloud API key>\"\x7d",
           Except.ok ⟨some "345.678"⟩) :=
  getBalance_matches_balance_field testClientKey balanceResp (by decide)

end CapMonster
